import Mathlib

/-
Verification of the resilient MQTT telemetry agent
(Go backend `go-backend/main.go`, Java client `java-client/src/main/java/app/Main.java`).

Payload bytes are modelled as lists of ASCII characters; machine int64 values are
modelled as `Int` with an explicit two's-complement wrap (`wrap64`) at the one place
where the source performs wrapping arithmetic (the digit-accumulation loop of the Go
`parseSeq`).
-/

namespace MqttLab

/-! ### Decimal digits (embeds `fmt.Sprintf "%d"` / `String.format "%d"` output) -/

/-- Decimal digit run of a natural number, most significant first.  Fuel-indexed
structural recursion (`fuel > n` suffices); this embeds the decimal text that
`fmt.Sprintf`/`String.format` produce for a nonnegative int64. -/
def natDigitsAux : Nat → Nat → List Char
  | 0, _ => []
  | fuel + 1, n =>
    if n < 10 then [Nat.digitChar n]
    else natDigitsAux fuel (n / 10) ++ [Nat.digitChar (n % 10)]

/-- Decimal representation of `n` as characters. -/
def natDigits (n : Nat) : List Char := natDigitsAux (n + 1) n

/-- Value of a decimal digit run, accumulated left to right exactly as the Go
`parseSeq` loop accumulates (`n = n*10 + (c - '0')`), but in unbounded `Nat`. -/
def digitsVal (ds : List Char) : Nat :=
  ds.foldl (fun a c => a * 10 + (c.toNat - 48)) 0

/-- ASCII digit test, embedding the Go byte check `c < '0' || c > '9'` (negated). -/
def isDigitChar (c : Char) : Bool := decide (48 ≤ c.toNat) && decide (c.toNat ≤ 57)

/-! ### Payload builder (Go `publish`, main.go:318-326; Java location task, Main.java:206-209) -/

/-- The textual header `ts=<ms>|seq=<n>|` (Go: `fmt.Sprintf("ts=%d|seq=%d|", ts, seq)`,
Java: `String.format("ts=%d|seq=%d|", ...)`). -/
def payloadHeader (ts n : Nat) : List Char :=
  't' :: 's' :: '=' ::
    (natDigits ts ++ '|' :: 's' :: 'e' :: 'q' :: '=' :: (natDigits n ++ ['|']))

/-- Built payload: the header padded with `'x'` filler up to `size` bytes; a negative
or small target adds no padding (Go: `pad := size - len(...); if pad < 0 { pad = 0 }`,
Java: `Math.max(0, cfg.payloadLocation - prefixLen)`). -/
def buildPayload (ts n : Nat) (size : Int) : List Char :=
  payloadHeader ts n ++
    List.replicate (size - ((payloadHeader ts n).length : Int)).toNat 'x'

/-! ### Parsers (Go `parseSeq`, main.go:188-204; Java `parseSeq`/`parseTs`, Main.java:249-265) -/

/-- Does `s` start with `pat`? (byte-wise comparison). -/
def startsWith : List Char → List Char → Bool
  | [], _ => true
  | _ :: _, [] => false
  | p :: ps, c :: cs => (p == c) && startsWith ps cs

/-- Suffix of `s` after the first occurrence of `pat`; `none` when `pat` does not
occur.  Embeds `strings.Index` (Go) / `String.indexOf` (Java) followed by taking the
suffix after the match. -/
def afterSub (pat : List Char) : List Char → Option (List Char)
  | [] => if startsWith pat [] then some [] else none
  | c :: rest =>
    if startsWith pat (c :: rest) then some (List.drop pat.length (c :: rest))
    else afterSub pat rest

/-- Characters strictly before the first `'|'`; `none` when there is no `'|'`.
Embeds `strings.IndexByte(s[i:], '|')` / `s.indexOf('|', i)` plus the substring. -/
def takeUntilBar : List Char → Option (List Char)
  | [] => none
  | c :: rest =>
    if c = '|' then some [] else (takeUntilBar rest).map (fun t => c :: t)

/-- Two's-complement wrap of an integer into the int64 range. -/
def wrap64 (z : Int) : Int := (z + 2 ^ 63) % 2 ^ 64 - 2 ^ 63

/-- The Go digit-accumulation loop of `parseSeq` (main.go:197-202): returns `-1` on
the first non-digit, otherwise accumulates `n = n*10 + (c-'0')` in int64 arithmetic. -/
def goDigitsLoop : List Char → Int → Int
  | [], n => n
  | c :: rest, n =>
    if isDigitChar c then
      goDigitsLoop rest (wrap64 (n * 10 + ((c.toNat : Int) - 48)))
    else -1

/-- Go `parseSeq` (main.go:188-204): find `"seq="`, take the run up to the next `'|'`,
accumulate digits; `-1` when the field or the delimiter is missing or a non-digit
appears. -/
def goParseSeq (s : List Char) : Int :=
  match afterSub ['s', 'e', 'q', '='] s with
  | none => -1
  | some rest =>
    match takeUntilBar rest with
    | none => -1
    | some ds => goDigitsLoop ds 0

/-- All characters are ASCII digits. -/
def allDigits (s : List Char) : Bool := s.all isDigitChar

/-- `Long.parseLong` (radix 10) semantics: optional sign, at least one digit,
magnitude within int64 range; `none` models `NumberFormatException`. -/
def javaParseLong (s : List Char) : Option Int :=
  match s with
  | [] => none
  | c :: rest =>
    if c = '+' then
      if rest ≠ [] ∧ allDigits rest = true ∧ (digitsVal rest : Int) ≤ 2 ^ 63 - 1 then
        some ((digitsVal rest : Int))
      else none
    else if c = '-' then
      if rest ≠ [] ∧ allDigits rest = true ∧ (digitsVal rest : Int) ≤ 2 ^ 63 then
        some (-(digitsVal rest : Int))
      else none
    else
      if allDigits (c :: rest) = true ∧ (digitsVal (c :: rest) : Int) ≤ 2 ^ 63 - 1 then
        some ((digitsVal (c :: rest) : Int))
      else none

/-- Java `parseSeq` (Main.java:249-256): find `"seq="`, substring up to the next
`'|'`, `Long.parseLong`; any failure (missing field, missing `'|'`, exception)
yields `-1`. -/
def javaParseSeq (s : List Char) : Int :=
  match afterSub ['s', 'e', 'q', '='] s with
  | none => -1
  | some rest =>
    match takeUntilBar rest with
    | none => -1
    | some ds => (javaParseLong ds).getD (-1)

/-- Java `parseTs` (Main.java:258-265): same shape with the `"ts="` field. -/
def javaParseTs (s : List Char) : Int :=
  match afterSub ['t', 's', '='] s with
  | none => -1
  | some rest =>
    match takeUntilBar rest with
    | none => -1
    | some ds => (javaParseLong ds).getD (-1)

/-- Java `messageArrived` latency (Main.java:172-175):
`lat = (pubTs > 0 && recvTs >= pubTs) ? recvTs - pubTs : -1`. -/
def javaLatency (payload : List Char) (recvTs : Int) : Int :=
  let pubTs := javaParseTs payload
  if pubTs > 0 ∧ recvTs ≥ pubTs then recvTs - pubTs else -1

/-- What the Go location-subscribe callback extracts from an inbound message
(main.go:293-297): the parsed sequence number and the byte count.  No timestamp is
parsed and no latency is computed on the Go side. -/
structure GoRecvLog where
  seq : Int
  bytes : Nat
  deriving DecidableEq, Repr

/-- Go location-subscribe callback body (main.go:293-297). -/
def goLocationArrived (payload : List Char) : GoRecvLog :=
  { seq := goParseSeq payload, bytes := payload.length }

/-! ### Publish loops and sequencer (main.go:378-405; Main.java:202-217) -/

/-- An outbound message handed to the transport client. -/
structure OutMsg where
  topic : String
  seq : Nat
  payload : List Char
  deriving DecidableEq, Repr

/-- One tick of a Go publish loop (main.go:379-391 and 393-405): only when the
connection is open does it take the next sequence number and publish; otherwise the
tick does nothing at all (there is no disconnected buffer, main.go:355). -/
def goPublishTick (topic : String) (connected : Bool) (ts : Nat) (size : Int)
    (seqState : Nat) : Nat × Option OutMsg :=
  if connected then
    let s := seqState + 1
    (s, some { topic := topic, seq := s, payload := buildPayload ts s size })
  else (seqState, none)

/-- The `/driver/offer` loop instance. -/
def goOfferTick (connected : Bool) (ts : Nat) (size : Int) (seqState : Nat) :
    Nat × Option OutMsg :=
  goPublishTick "/driver/offer" connected ts size seqState

/-- The `/driver/ride` loop instance. -/
def goRideTick (connected : Bool) (ts : Nat) (size : Int) (seqState : Nat) :
    Nat × Option OutMsg :=
  goPublishTick "/driver/ride" connected ts size seqState

/-- One tick of the Java location publisher (Main.java:203-217): unconditionally
takes the next sequence number, builds the payload and hands it to the client
(whose disconnected buffer holds it while offline). -/
def javaLocationTick (ts : Nat) (size : Int) (seqState : Nat) : Nat × Option OutMsg :=
  let s := seqState + 1
  (s, some { topic := "/driver/location", seq := s, payload := buildPayload ts s size })

/-- Sequence numbers assigned by the Go offer loop along a run of ticks, given the
per-tick connectivity (`offerSeq.Add(1)` fires only on connected ticks). -/
def goOfferSeqTrace : List Bool → Nat → List Nat
  | [], _ => []
  | c :: rest, s =>
    if c then (s + 1) :: goOfferSeqTrace rest (s + 1) else goOfferSeqTrace rest s

/-- Sequence numbers assigned by the Java location task over `k` ticks
(`seq.incrementAndGet()` fires on every tick). -/
def javaSeqTrace : Nat → Nat → List Nat
  | _, 0 => []
  | s, k + 1 => (s + 1) :: javaSeqTrace (s + 1) k

/-! ### Liveness monitor (main.go:408-423; Main.java:221-234) -/

/-- A liveness transition event. -/
inductive LivenessEvent where
  | dead
  | alive
  deriving DecidableEq, Repr

/-- One liveness poll step over (previous, current) connectivity: the two `if`
statements of the Go goroutine / Java stats task. -/
def livenessStep (prev cur : Bool) : List LivenessEvent :=
  (if prev && !cur then [LivenessEvent.dead] else []) ++
    (if !prev && cur then [LivenessEvent.alive] else [])

/-- Events emitted over a run of polls, threading `prev := cur` after each poll. -/
def livenessRun (prev : Bool) : List Bool → List LivenessEvent
  | [] => []
  | c :: rest => livenessStep prev c ++ livenessRun c rest

/-! ### Process-exit model (main.go:206-311; Main.java:112-194) -/

/-- The failure situations the spec's exit policy talks about. -/
inductive FailureEvent where
  | configError
  | initialConnectFailure
  | publishFailure
  | connectionLost
  deriving DecidableEq, Repr

/-- Whether the Go backend process exits on a failure, as a function of the
auto-reconnect setting: `log.Fatalf` fires on a config error (main.go:209) and on an
initial connect failure (main.go:309-311) -- the latter without consulting
`retry.enabled`; publish failures and connection loss only log
(main.go:305, 329-336). -/
def goExitsOn : Bool → FailureEvent → Bool
  | _, .configError => true
  | _, .initialConnectFailure => true
  | _, .publishFailure => false
  | _, .connectionLost => false

/-- Whether the Java client process exits on a failure: a config load error throws
out of `main` (Main.java:114); the initial connect is retried forever in a loop
(Main.java:184-194) regardless of the auto-reconnect setting; publish errors and
connection loss only log (Main.java:170, 213). -/
def javaExitsOn : Bool → FailureEvent → Bool
  | _, .configError => true
  | _, .initialConnectFailure => false
  | _, .publishFailure => false
  | _, .connectionLost => false

/-! ### Go config defaulting (`loadConfig`, main.go:68-158) -/

/-- The Go `Config` struct after YAML unmarshalling (absent keys are Go zero
values: `0`, `""`, `false`, `nil`). Pointer-typed fields are `Option`s. -/
structure GoConfig where
  host : String
  port : Int
  clientID : String
  keepAliveSecs : Int
  protocolVersion : Int
  cleanSession : Option Bool
  retryEnabled : Option Bool
  connectTimeoutMs : Int
  maxReconnectIntervalMs : Int
  pingTimeoutMs : Int
  writeTimeoutMs : Int
  offerEveryMs : Int
  rideEveryMs : Int
  qosLocation : Option Int
  qosOffer : Option Int
  qosRide : Option Int
  payloadOffer : Int
  payloadRide : Int
  tcpKeepAliveSecs : Int
  tcpNoDelay : Bool
  readBuffer : Int
  writeBuffer : Int
  maxInflight : Int
  bufferEnabled : Bool
  bufferSize : Int
  dropOldest : Bool
  persist : Bool
  debug : Bool
  deriving DecidableEq, Repr

/-- The defaulting pass of `loadConfig` (main.go:81-157): each plain field is
replaced by its default exactly when it equals its Go zero value; each
pointer-typed field is defaulted exactly when it is `nil`. -/
def applyDefaults (c : GoConfig) : GoConfig :=
  { host := if c.host = "" then "mqtt-gateway" else c.host
    port := if c.port = 0 then 1883 else c.port
    clientID := if c.clientID = "" then "backend-1" else c.clientID
    keepAliveSecs := if c.keepAliveSecs = 0 then 15 else c.keepAliveSecs
    protocolVersion := if c.protocolVersion = 0 then 3 else c.protocolVersion
    cleanSession := if c.cleanSession = none then some true else c.cleanSession
    retryEnabled := if c.retryEnabled = none then some true else c.retryEnabled
    connectTimeoutMs := if c.connectTimeoutMs = 0 then 5000 else c.connectTimeoutMs
    maxReconnectIntervalMs :=
      if c.maxReconnectIntervalMs = 0 then 10000 else c.maxReconnectIntervalMs
    pingTimeoutMs := if c.pingTimeoutMs = 0 then 5000 else c.pingTimeoutMs
    writeTimeoutMs := if c.writeTimeoutMs = 0 then 5000 else c.writeTimeoutMs
    offerEveryMs := if c.offerEveryMs = 0 then 1000 else c.offerEveryMs
    rideEveryMs := if c.rideEveryMs = 0 then 2000 else c.rideEveryMs
    qosLocation := if c.qosLocation = none then some 1 else c.qosLocation
    qosOffer := if c.qosOffer = none then some 1 else c.qosOffer
    qosRide := if c.qosRide = none then some 1 else c.qosRide
    payloadOffer := if c.payloadOffer = 0 then 100 else c.payloadOffer
    payloadRide := if c.payloadRide = 0 then 120 else c.payloadRide
    tcpKeepAliveSecs := if c.tcpKeepAliveSecs = 0 then 60 else c.tcpKeepAliveSecs
    tcpNoDelay := c.tcpNoDelay
    readBuffer := if c.readBuffer = 0 then 262144 else c.readBuffer
    writeBuffer := if c.writeBuffer = 0 then 262144 else c.writeBuffer
    maxInflight := if c.maxInflight = 0 then 64 else c.maxInflight
    bufferEnabled := c.bufferEnabled
    bufferSize := if c.bufferSize = 0 then 1000 else c.bufferSize
    dropOldest := c.dropOldest
    persist := c.persist
    debug := c.debug }

/-! ### Reconnect backoff -/

/-- Modelled from the spec: the reconnect backoff loop of section 4.1 is implemented
inside the Paho MQTT client libraries, which the sources only configure
(`SetMaxReconnectInterval`, main.go:261-263; `setMaxReconnectDelay`, Main.java:148).
Per the spec, the delay starts at a base value, doubles after each consecutive
failed attempt, is clamped at the configured maximum reconnect interval, and a
successful reconnection resets it to the base. One step of that state machine:
the `Bool` is whether the attempt succeeded. -/
def backoffStep (base maxIv cur : Nat) : Bool → Nat
  | true => base
  | false => min (cur * 2) maxIv

/-- Modelled from the spec: the delay before the `(k+1)`-th attempt in a run of
consecutive failures, starting from the reset state. -/
def backoffDelay (base maxIv : Nat) : Nat → Nat
  | 0 => base
  | k + 1 => backoffStep base maxIv (backoffDelay base maxIv k) false

/-! ## Supporting lemmas -/

theorem isDigitChar_digitChar {d : Nat} (h : d < 10) :
    isDigitChar (Nat.digitChar d) = true := by
  interval_cases d <;> decide

theorem digitChar_toNat {d : Nat} (h : d < 10) : (Nat.digitChar d).toNat = 48 + d := by
  interval_cases d <;> rfl

theorem toNat_bounds_of_isDigitChar {c : Char} (h : isDigitChar c = true) :
    48 ≤ c.toNat ∧ c.toNat ≤ 57 := by
  simp only [isDigitChar, Bool.and_eq_true, decide_eq_true_eq] at h
  exact h

theorem beq_s_eq_false_of_isDigitChar {c : Char} (h : isDigitChar c = true) :
    ('s' == c) = false := by
  cases hbe : ('s' == c) with
  | false => rfl
  | true =>
    have he : 's' = c := eq_of_beq hbe
    rw [← he] at h
    exact absurd h (by decide)

theorem ne_bar_of_isDigitChar {c : Char} (h : isDigitChar c = true) : ¬(c = '|') := by
  intro he
  rw [he] at h
  exact absurd h (by decide)

theorem natDigitsAux_isDigit : ∀ (fuel n : Nat), n < fuel →
    ∀ c ∈ natDigitsAux fuel n, isDigitChar c = true := by
  intro fuel
  induction fuel with
  | zero => intro n h; omega
  | succ f ih =>
    intro n h c hc
    by_cases h10 : n < 10
    · simp only [natDigitsAux, if_pos h10, List.mem_singleton] at hc
      rw [hc]
      exact isDigitChar_digitChar h10
    · have hrec : n / 10 < f := by omega
      simp only [natDigitsAux, if_neg h10, List.mem_append, List.mem_singleton] at hc
      rcases hc with hc | hc
      · exact ih (n / 10) hrec c hc
      · rw [hc]
        exact isDigitChar_digitChar (by omega)

theorem natDigitsAux_ne_nil : ∀ (fuel n : Nat), n < fuel → natDigitsAux fuel n ≠ [] := by
  intro fuel n h
  cases fuel with
  | zero => omega
  | succ f => by_cases h10 : n < 10 <;> simp [natDigitsAux, h10]

theorem digitsVal_append_singleton (l : List Char) (c : Char) :
    digitsVal (l ++ [c]) = digitsVal l * 10 + (c.toNat - 48) := by
  simp [digitsVal, List.foldl_append]

theorem natDigitsAux_val : ∀ (fuel n : Nat), n < fuel →
    digitsVal (natDigitsAux fuel n) = n := by
  intro fuel
  induction fuel with
  | zero => intro n h; omega
  | succ f ih =>
    intro n h
    by_cases h10 : n < 10
    · have h1 : natDigitsAux (f + 1) n = [Nat.digitChar n] := by
        simp [natDigitsAux, h10]
      rw [h1]
      simp [digitsVal, digitChar_toNat h10]
    · have hrec : n / 10 < f := by omega
      have h1 : natDigitsAux (f + 1) n =
          natDigitsAux f (n / 10) ++ [Nat.digitChar (n % 10)] := by
        simp [natDigitsAux, h10]
      rw [h1, digitsVal_append_singleton, ih (n / 10) hrec,
          digitChar_toNat (by omega : n % 10 < 10)]
      omega

theorem natDigits_isDigit (n : Nat) : ∀ c ∈ natDigits n, isDigitChar c = true :=
  natDigitsAux_isDigit (n + 1) n (Nat.lt_succ_self n)

theorem natDigits_val (n : Nat) : digitsVal (natDigits n) = n :=
  natDigitsAux_val (n + 1) n (Nat.lt_succ_self n)

theorem natDigits_ne_nil (n : Nat) : natDigits n ≠ [] :=
  natDigitsAux_ne_nil (n + 1) n (Nat.lt_succ_self n)

theorem takeUntilBar_digits : ∀ (ds : List Char),
    (∀ c ∈ ds, isDigitChar c = true) →
    ∀ t, takeUntilBar (ds ++ '|' :: t) = some ds := by
  intro ds
  induction ds with
  | nil => intro _ t; simp [takeUntilBar]
  | cons c ds ih =>
    intro h t
    have hc : ¬(c = '|') := ne_bar_of_isDigitChar (h c (by simp))
    simp [takeUntilBar, hc, ih (fun x hx => h x (by simp [hx])) t]

theorem afterSub_seq_digits : ∀ (ds : List Char),
    (∀ c ∈ ds, isDigitChar c = true) → ∀ t,
    afterSub ['s', 'e', 'q', '='] (ds ++ '|' :: 's' :: 'e' :: 'q' :: '=' :: t) =
      some t := by
  intro ds
  induction ds with
  | nil => intro _ t; rfl
  | cons c ds ih =>
    intro h t
    have hc : ('s' == c) = false := beq_s_eq_false_of_isDigitChar (h c (by simp))
    simp only [List.cons_append, afterSub, startsWith, hc, Bool.false_and,
      Bool.if_false_left, Bool.and_eq_true, decide_eq_true_eq, if_neg,
      Bool.false_eq_true, if_false]
    exact ih (fun x hx => h x (by simp [hx])) t

theorem afterSub_seq_header (dts : List Char)
    (hd : ∀ c ∈ dts, isDigitChar c = true) (rest : List Char) :
    afterSub ['s', 'e', 'q', '=']
      ('t' :: 's' :: '=' :: (dts ++ '|' :: 's' :: 'e' :: 'q' :: '=' :: rest)) =
      some rest := by
  have h1 : afterSub ['s', 'e', 'q', '=']
      ('t' :: 's' :: '=' :: (dts ++ '|' :: 's' :: 'e' :: 'q' :: '=' :: rest)) =
      afterSub ['s', 'e', 'q', '='] (dts ++ '|' :: 's' :: 'e' :: 'q' :: '=' :: rest) := by
    simp [afterSub, startsWith]
  rw [h1]
  exact afterSub_seq_digits dts hd rest

theorem afterSub_ts_header (X : List Char) :
    afterSub ['t', 's', '='] ('t' :: 's' :: '=' :: X) = some X := rfl

theorem wrap64_eq_self {z : Int} (h1 : -(2 ^ 63) ≤ z) (h2 : z < 2 ^ 63) :
    wrap64 z = z := by
  unfold wrap64
  omega

theorem digitsVal_foldl_le : ∀ (ds : List Char) (a : Nat),
    a ≤ ds.foldl (fun x c => x * 10 + (c.toNat - 48)) a := by
  intro ds
  induction ds with
  | nil => intro a; simp
  | cons c ds ih =>
    intro a
    rw [List.foldl_cons]
    exact le_trans (by omega : a ≤ a * 10 + (c.toNat - 48)) (ih _)

theorem goDigitsLoop_eq : ∀ (ds : List Char), (∀ c ∈ ds, isDigitChar c = true) →
    ∀ (a : Nat), ds.foldl (fun x c => x * 10 + (c.toNat - 48)) a < 2 ^ 63 →
    goDigitsLoop ds (a : Int) =
      ((ds.foldl (fun x c => x * 10 + (c.toNat - 48)) a : Nat) : Int) := by
  intro ds
  induction ds with
  | nil => intro _ a _; rfl
  | cons c ds ih =>
    intro h a hb
    have hc : isDigitChar c = true := h c (by simp)
    have hcb := toNat_bounds_of_isDigitChar hc
    rw [List.foldl_cons] at hb ⊢
    have hle : a * 10 + (c.toNat - 48) ≤
        ds.foldl (fun x c => x * 10 + (c.toNat - 48)) (a * 10 + (c.toNat - 48)) :=
      digitsVal_foldl_le ds _
    have hlt : a * 10 + (c.toNat - 48) < 2 ^ 63 := lt_of_le_of_lt hle hb
    have h1 : goDigitsLoop (c :: ds) (a : Int) =
        goDigitsLoop ds (wrap64 ((a : Int) * 10 + ((c.toNat : Int) - 48))) := by
      simp [goDigitsLoop, hc]
    have h2 : (a : Int) * 10 + ((c.toNat : Int) - 48) =
        ((a * 10 + (c.toNat - 48) : Nat) : Int) := by
      push_cast [Nat.cast_sub hcb.1]
      ring
    have h3 : wrap64 ((a * 10 + (c.toNat - 48) : Nat) : Int) =
        ((a * 10 + (c.toNat - 48) : Nat) : Int) := by
      apply wrap64_eq_self
      · exact le_trans (by norm_num) (Int.natCast_nonneg _)
      · exact_mod_cast hlt
    rw [h1, h2, h3]
    exact ih (fun x hx => h x (by simp [hx])) _ hb

theorem goDigitsLoop_digitsVal (ds : List Char)
    (hd : ∀ c ∈ ds, isDigitChar c = true) (hb : digitsVal ds < 2 ^ 63) :
    goDigitsLoop ds 0 = (digitsVal ds : Int) :=
  goDigitsLoop_eq ds hd 0 hb

theorem javaParseLong_digits (ds : List Char) (hne : ds ≠ [])
    (hd : ∀ c ∈ ds, isDigitChar c = true)
    (hb : (digitsVal ds : Int) ≤ 2 ^ 63 - 1) :
    javaParseLong ds = some ((digitsVal ds : Int)) := by
  cases ds with
  | nil => exact absurd rfl hne
  | cons c rest =>
    have hc : isDigitChar c = true := hd c (by simp)
    have hplus : ¬(c = '+') := by
      intro he; rw [he] at hc; exact absurd hc (by decide)
    have hminus : ¬(c = '-') := by
      intro he; rw [he] at hc; exact absurd hc (by decide)
    have hall : allDigits (c :: rest) = true := by
      simp only [allDigits, List.all_eq_true]
      exact hd
    simp [javaParseLong, hplus, hminus, hall, hb]
    omega

theorem buildPayload_decomp (ts n : Nat) (size : Int) :
    buildPayload ts n size = 't' :: 's' :: '=' ::
      (natDigits ts ++ '|' :: 's' :: 'e' :: 'q' :: '=' ::
        (natDigits n ++ '|' ::
          List.replicate (size - ((payloadHeader ts n).length : Int)).toNat 'x')) := by
  simp [buildPayload, payloadHeader, List.append_assoc]

theorem goParseSeq_build (ts n : Nat) (size : Int) (hn : n < 2 ^ 63) :
    goParseSeq (buildPayload ts n size) = (n : Int) := by
  rw [buildPayload_decomp]
  simp only [goParseSeq, afterSub_seq_header (natDigits ts) (natDigits_isDigit ts),
    takeUntilBar_digits (natDigits n) (natDigits_isDigit n)]
  rw [goDigitsLoop_digitsVal (natDigits n) (natDigits_isDigit n)
    (by rw [natDigits_val n]; exact hn)]
  rw [natDigits_val n]

theorem javaParseSeq_build (ts n : Nat) (size : Int) (hn : n < 2 ^ 63) :
    javaParseSeq (buildPayload ts n size) = (n : Int) := by
  rw [buildPayload_decomp]
  simp only [javaParseSeq, afterSub_seq_header (natDigits ts) (natDigits_isDigit ts),
    takeUntilBar_digits (natDigits n) (natDigits_isDigit n)]
  rw [javaParseLong_digits (natDigits n) (natDigits_ne_nil n) (natDigits_isDigit n)
    (by rw [natDigits_val n]; omega)]
  rw [Option.getD_some, natDigits_val n]

theorem javaParseTs_build (ts n : Nat) (size : Int) (hts : ts < 2 ^ 63) :
    javaParseTs (buildPayload ts n size) = (ts : Int) := by
  rw [buildPayload_decomp]
  simp only [javaParseTs, afterSub_ts_header,
    takeUntilBar_digits (natDigits ts) (natDigits_isDigit ts)]
  rw [javaParseLong_digits (natDigits ts) (natDigits_ne_nil ts) (natDigits_isDigit ts)
    (by rw [natDigits_val ts]; omega)]
  rw [Option.getD_some, natDigits_val ts]

theorem goOfferSeqTrace_eq : ∀ (conns : List Bool) (s : Nat),
    goOfferSeqTrace conns s = List.range' (s + 1) (conns.count true) := by
  intro conns
  induction conns with
  | nil => intro s; simp [goOfferSeqTrace]
  | cons c rest ih =>
    intro s
    cases c <;> simp [goOfferSeqTrace, List.count_cons, ih, List.range']

theorem javaSeqTrace_eq : ∀ (k s : Nat), javaSeqTrace s k = List.range' (s + 1) k := by
  intro k
  induction k with
  | zero => intro s; rfl
  | succ k ih => intro s; simp [javaSeqTrace, ih, List.range']

/-! ## Claims -/

/-- C1 counterexample: a scheduled offer tick of the Go backend while the connection
is not open produces no message at all -- nothing is published, nothing is buffered,
and the sequence state is unchanged -- refuting the claim that the tick's message is
placed into a buffer and later flushed. -/
theorem claim_C1_counterexample :
    (goOfferTick false 0 100 0).2 = none ∧ (goOfferTick false 0 100 0).1 = 0 :=
  ⟨rfl, rfl⟩

/-- C1 (amended): in the Go backend a publish tick while disconnected is skipped
outright (no sequence number assigned, nothing published, nothing buffered -- the Go
side has no disconnected buffer), while a connected tick publishes the next sequenced
payload; the Java client hands every tick's message to the transport client
unconditionally, where the configured disconnected buffer holds it while offline. -/
theorem claim_C1_theorem :
    (∀ (ts : Nat) (size : Int) (st : Nat), goOfferTick false ts size st = (st, none)) ∧
    (∀ (ts : Nat) (size : Int) (st : Nat),
      (goOfferTick true ts size st).2 =
        some { topic := "/driver/offer", seq := st + 1,
               payload := buildPayload ts (st + 1) size }) ∧
    (∀ (ts : Nat) (size : Int) (st : Nat), goRideTick false ts size st = (st, none)) ∧
    (∀ (ts : Nat) (size : Int) (st : Nat),
      (javaLocationTick ts size st).2 =
        some { topic := "/driver/location", seq := st + 1,
               payload := buildPayload ts (st + 1) size }) :=
  ⟨fun _ _ _ => rfl, fun _ _ _ => rfl, fun _ _ _ => rfl, fun _ _ _ => rfl⟩

/-- C2 counterexample: the Go backend exits on an initial connect failure even with
auto-reconnect enabled (`log.Fatalf` at main.go:309-311 does not consult
`retry.enabled`), refuting the claim that with auto-reconnect enabled an initial
connect failure leaves the process running. -/
theorem claim_C2_counterexample :
    goExitsOn true FailureEvent.initialConnectFailure = true ∧
    ¬(FailureEvent.initialConnectFailure = FailureEvent.configError ∨
      (FailureEvent.initialConnectFailure = FailureEvent.initialConnectFailure ∧
        true = false)) := by
  decide

/-- C2 (amended): the Go backend exits exactly on a configuration error or on an
initial connect failure (regardless of the auto-reconnect setting); the Java client
exits only on a configuration error (its initial connect is retried forever); all
other failures leave both processes running. -/
theorem claim_C2_theorem : ∀ (ar : Bool) (ev : FailureEvent),
    (goExitsOn ar ev = true ↔
      (ev = FailureEvent.configError ∨ ev = FailureEvent.initialConnectFailure)) ∧
    (javaExitsOn ar ev = true ↔ ev = FailureEvent.configError) := by
  intro ar ev
  cases ev <;> simp [goExitsOn, javaExitsOn]

/-- C2 witness: both processes exit on a configuration error. -/
theorem claim_C2_witness :
    goExitsOn false FailureEvent.configError = true ∧
    javaExitsOn false FailureEvent.configError = true :=
  ⟨(claim_C2_theorem false FailureEvent.configError).1.mpr (Or.inl rfl),
   (claim_C2_theorem false FailureEvent.configError).2.mpr rfl⟩

/-- C3: the built payload has length `max size headerLength`; when the target size
does not exceed the header length the payload is exactly the header (no padding, no
truncation), and when the header is shorter than the target the payload is the
header followed by `'x'` filler up to the target. -/
theorem claim_C3_theorem (ts n : Nat) (size : Int) :
    (((buildPayload ts n size).length : Int) =
      max size ((payloadHeader ts n).length : Int)) ∧
    (size ≤ ((payloadHeader ts n).length : Int) →
      buildPayload ts n size = payloadHeader ts n) ∧
    (((payloadHeader ts n).length : Int) < size →
      buildPayload ts n size =
        payloadHeader ts n ++
          List.replicate (size - ((payloadHeader ts n).length : Int)).toNat 'x') := by
  refine ⟨?_, ?_, fun _ => rfl⟩
  · simp only [buildPayload, List.length_append, List.length_replicate]
    push_cast
    omega
  · intro h
    have hz : (size - ((payloadHeader ts n).length : Int)).toNat = 0 := by omega
    simp [buildPayload, hz]

/-- C3 witness: concrete instances of the padding and no-padding cases. -/
theorem claim_C3_witness :
    (((buildPayload 1 2 50).length : Int) =
      max 50 ((payloadHeader 1 2).length : Int)) ∧
    buildPayload 1 2 3 = payloadHeader 1 2 :=
  ⟨(claim_C3_theorem 1 2 50).1, (claim_C3_theorem 1 2 3).2.1 (by decide)⟩

/-- C4: the Go offer loop assigns sequence numbers `1, 2, 3, ...` in assignment
order (one new value per connected tick, none skipped or reused), and the Java
location task assigns `1, 2, 3, ...` one per tick. -/
theorem claim_C4_theorem :
    (∀ conns : List Bool, goOfferSeqTrace conns 0 = List.range' 1 (conns.count true)) ∧
    (∀ k : Nat, javaSeqTrace 0 k = List.range' 1 k) := by
  constructor
  · intro conns; simpa using goOfferSeqTrace_eq conns 0
  · intro k; simpa using javaSeqTrace_eq k 0

/-- C5: round-trip of the wire payload contract: for every int64-representable
timestamp and sequence number and every target size, the Go `parseSeq`, the Java
`parseSeq` and the Java `parseTs` recover from the built payload exactly the values
that were written. -/
theorem claim_C5_theorem (ts n : Nat) (size : Int)
    (hts : ts < 2 ^ 63) (hn : n < 2 ^ 63) :
    goParseSeq (buildPayload ts n size) = (n : Int) ∧
    javaParseSeq (buildPayload ts n size) = (n : Int) ∧
    javaParseTs (buildPayload ts n size) = (ts : Int) :=
  ⟨goParseSeq_build ts n size hn, javaParseSeq_build ts n size hn,
   javaParseTs_build ts n size hts⟩

/-- C5 witness: a concrete epoch-milliseconds timestamp and sequence number. -/
theorem claim_C5_witness :
    goParseSeq (buildPayload 1700000000000 42 100) = ((42 : Nat) : Int) ∧
    javaParseSeq (buildPayload 1700000000000 42 100) = ((42 : Nat) : Int) ∧
    javaParseTs (buildPayload 1700000000000 42 100) = ((1700000000000 : Nat) : Int) :=
  claim_C5_theorem 1700000000000 42 100 (by norm_num) (by norm_num)

/-- C6 counterexample: a payload carrying publish-time 0 has a present, well-formed
`ts=` field, yet for receive-time 5 (so the delay is 5 and nonnegative) the Java
consumer reports the unavailable sentinel -1 rather than 5, because the code
requires `pubTs > 0`, not merely a parsed prefix. -/
theorem claim_C6_counterexample :
    javaLatency (buildPayload 0 1 20) 5 = -1 ∧
    javaLatency (buildPayload 0 1 20) 5 ≠ 5 := by
  decide

/-- C6 (amended): on the Java client, when the payload parses to a publish time
strictly greater than 0 and the receive time is not earlier, the computed latency is
exactly receive-time minus publish-time; in every other case (missing or malformed
field, parsed publish time not strictly positive -- including a literal `ts=0` --
or receive time earlier than publish time) the reported value is the sentinel -1.
The Go backend consumer parses only the sequence number and computes no latency
(see `goLocationArrived`). -/
theorem claim_C6_theorem :
    (∀ (ts n : Nat) (size : Int) (recvTs : Int), 0 < ts → ts < 2 ^ 63 →
      (ts : Int) ≤ recvTs →
      javaLatency (buildPayload ts n size) recvTs = recvTs - (ts : Int)) ∧
    (∀ (p : List Char) (recvTs : Int),
      javaParseTs p ≤ 0 ∨ recvTs < javaParseTs p → javaLatency p recvTs = -1) := by
  constructor
  · intro ts n size recvTs h1 h2 h3
    have hp : javaParseTs (buildPayload ts n size) = (ts : Int) :=
      javaParseTs_build ts n size h2
    simp only [javaLatency, hp]
    rw [if_pos ⟨by exact_mod_cast h1, h3⟩]
  · intro p recvTs h
    simp only [javaLatency]
    rw [if_neg]
    intro hc
    rcases h with h | h
    · exact absurd hc.1 (not_lt.mpr h)
    · exact absurd hc.2 (not_le.mpr h)

/-- C6 witness: latency 2 for publish time 10 and receive time 12; sentinel for a
receive time earlier than the publish time. -/
theorem claim_C6_witness :
    javaLatency (buildPayload 10 1 30) 12 = 12 - ((10 : Nat) : Int) ∧
    javaLatency (buildPayload 10 1 30) 5 = -1 :=
  ⟨claim_C6_theorem.1 10 1 30 12 (by norm_num) (by norm_num) (by norm_num),
   claim_C6_theorem.2 (buildPayload 10 1 30) 5 (Or.inr (by
     rw [javaParseTs_build 10 1 30 (by norm_num)]
     norm_num))⟩

/-- C7: the liveness monitor is edge-triggered: a dead event is emitted exactly on
an alive-to-dead edge, an alive event exactly on a dead-to-alive edge, nothing is
emitted when the state is unchanged, and any run of identical polls emits nothing. -/
theorem claim_C7_theorem : ∀ (prev cur : Bool),
    (livenessStep prev cur = [LivenessEvent.dead] ↔ (prev = true ∧ cur = false)) ∧
    (livenessStep prev cur = [LivenessEvent.alive] ↔ (prev = false ∧ cur = true)) ∧
    (prev = cur → livenessStep prev cur = []) ∧
    (∀ (n : Nat) (b : Bool), livenessRun b (List.replicate n b) = []) := by
  intro prev cur
  refine ⟨?_, ?_, ?_, ?_⟩
  · cases prev <;> cases cur <;> simp [livenessStep]
  · cases prev <;> cases cur <;> simp [livenessStep]
  · intro h; subst h; cases prev <;> rfl
  · intro n b
    induction n with
    | zero => rfl
    | succ k ih =>
      have hstep : livenessStep b b = [] := by cases b <;> rfl
      simp [List.replicate_succ, livenessRun, hstep, ih]

/-- C7 witness: the four behaviors at concrete states. -/
theorem claim_C7_witness :
    livenessStep true false = [LivenessEvent.dead] ∧
    livenessStep false true = [LivenessEvent.alive] ∧
    livenessStep true true = [] ∧
    livenessRun true (List.replicate 5 true) = [] :=
  ⟨(claim_C7_theorem true false).1.mpr ⟨rfl, rfl⟩,
   (claim_C7_theorem false true).2.1.mpr ⟨rfl, rfl⟩,
   (claim_C7_theorem true true).2.2.1 rfl,
   (claim_C7_theorem true true).2.2.2 5 true⟩

/-- C8 counterexample: on the payload `seq=|` (an empty value field) the Go
`parseSeq` returns 0 while the Java `parseSeq` returns the sentinel -1, so the two
sides do not compute the same function. -/
theorem claim_C8_counterexample :
    goParseSeq ['s', 'e', 'q', '=', '|'] = 0 ∧
    javaParseSeq ['s', 'e', 'q', '=', '|'] = -1 ∧
    goParseSeq ['s', 'e', 'q', '=', '|'] ≠ javaParseSeq ['s', 'e', 'q', '=', '|'] := by
  decide

/-- C8 (amended): the two parsers agree -- both returning the field's value --
whenever the first `seq=` occurrence is followed by a nonempty run of ASCII digits
terminated by `|` whose value is below 2^63; they differ on an empty value field
(Go yields 0, Java yields -1) and may differ on signed or out-of-int64-range values
that only `Long.parseLong` treats specially. -/
theorem claim_C8_theorem (p ds t : List Char)
    (h1 : afterSub ['s', 'e', 'q', '='] p = some (ds ++ '|' :: t))
    (h3 : ds ≠ []) (h4 : ∀ c ∈ ds, isDigitChar c = true)
    (h5 : digitsVal ds < 2 ^ 63) :
    goParseSeq p = javaParseSeq p ∧ goParseSeq p = (digitsVal ds : Int) := by
  have htb := takeUntilBar_digits ds h4 t
  have hgo : goParseSeq p = (digitsVal ds : Int) := by
    simp only [goParseSeq, h1, htb]
    exact goDigitsLoop_digitsVal ds h4 h5
  have hjv : javaParseSeq p = (digitsVal ds : Int) := by
    simp only [javaParseSeq, h1, htb]
    rw [javaParseLong_digits ds h3 h4 (by omega)]
    rw [Option.getD_some]
  exact ⟨hgo.trans hjv.symm, hgo⟩

/-- C8 witness: both parsers yield 7 on the payload `seq=7|`. -/
theorem claim_C8_witness :
    goParseSeq ['s', 'e', 'q', '=', '7', '|'] =
      javaParseSeq ['s', 'e', 'q', '=', '7', '|'] ∧
    goParseSeq ['s', 'e', 'q', '=', '7', '|'] = (digitsVal ['7'] : Int) :=
  claim_C8_theorem ['s', 'e', 'q', '=', '7', '|'] ['7'] []
    (by decide) (by decide) (by decide) (by decide)

/-- C9: with base delay not exceeding the cap, the delay before the `(k+1)`-th
consecutive failed reconnect attempt is `base * 2 ^ k` clamped at the configured
maximum reconnect interval, and a successful reconnection resets the delay to base.
(Backoff state machine modelled from the spec; the loop lives in the Paho client
libraries, which the sources only configure.) -/
theorem claim_C9_theorem (base maxIv : Nat) (h : base ≤ maxIv) :
    (∀ k, backoffDelay base maxIv k = min (base * 2 ^ k) maxIv) ∧
    (∀ cur, backoffStep base maxIv cur true = base) := by
  constructor
  · intro k
    induction k with
    | zero =>
      have h0 : backoffDelay base maxIv 0 = base := rfl
      rw [h0, pow_zero, mul_one]
      omega
    | succ k ih =>
      have hstep : backoffDelay base maxIv (k + 1) =
          min (backoffDelay base maxIv k * 2) maxIv := rfl
      have h2 : base * 2 ^ (k + 1) = base * 2 ^ k * 2 := by ring
      rw [hstep, ih, h2]
      generalize base * 2 ^ k = A
      omega
  · intro cur; rfl

/-- C9 witness: base 1000ms, cap 10000ms, fourth attempt clamps at the cap. -/
theorem claim_C9_witness :
    backoffDelay 1000 10000 3 = min (1000 * 2 ^ 3) 10000 ∧
    backoffStep 1000 10000 4000 true = 1000 :=
  ⟨(claim_C9_theorem 1000 10000 (by decide)).1 3,
   (claim_C9_theorem 1000 10000 (by decide)).2 4000⟩

/-- C10: every plain-int option of the Go `loadConfig` is replaced by its built-in
default exactly when the loaded value is `0` (so an explicit `0` behaves like an
absent key), while the pointer-typed options are defaulted only when absent (`nil`),
preserving an explicitly configured `0`/`false`. -/
theorem claim_C10_theorem : ∀ c : GoConfig,
    ((applyDefaults c).keepAliveSecs =
      if c.keepAliveSecs = 0 then 15 else c.keepAliveSecs) ∧
    ((applyDefaults c).connectTimeoutMs =
      if c.connectTimeoutMs = 0 then 5000 else c.connectTimeoutMs) ∧
    ((applyDefaults c).maxReconnectIntervalMs =
      if c.maxReconnectIntervalMs = 0 then 10000 else c.maxReconnectIntervalMs) ∧
    ((applyDefaults c).pingTimeoutMs =
      if c.pingTimeoutMs = 0 then 5000 else c.pingTimeoutMs) ∧
    ((applyDefaults c).writeTimeoutMs =
      if c.writeTimeoutMs = 0 then 5000 else c.writeTimeoutMs) ∧
    ((applyDefaults c).offerEveryMs =
      if c.offerEveryMs = 0 then 1000 else c.offerEveryMs) ∧
    ((applyDefaults c).rideEveryMs =
      if c.rideEveryMs = 0 then 2000 else c.rideEveryMs) ∧
    ((applyDefaults c).payloadOffer =
      if c.payloadOffer = 0 then 100 else c.payloadOffer) ∧
    ((applyDefaults c).payloadRide =
      if c.payloadRide = 0 then 120 else c.payloadRide) ∧
    ((applyDefaults c).maxInflight =
      if c.maxInflight = 0 then 64 else c.maxInflight) ∧
    ((applyDefaults c).bufferSize =
      if c.bufferSize = 0 then 1000 else c.bufferSize) ∧
    ((applyDefaults c).readBuffer =
      if c.readBuffer = 0 then 262144 else c.readBuffer) ∧
    ((applyDefaults c).writeBuffer =
      if c.writeBuffer = 0 then 262144 else c.writeBuffer) ∧
    ((applyDefaults c).qosLocation =
      if c.qosLocation = none then some 1 else c.qosLocation) ∧
    ((applyDefaults c).qosOffer =
      if c.qosOffer = none then some 1 else c.qosOffer) ∧
    ((applyDefaults c).qosRide =
      if c.qosRide = none then some 1 else c.qosRide) ∧
    ((applyDefaults c).cleanSession =
      if c.cleanSession = none then some true else c.cleanSession) ∧
    ((applyDefaults c).retryEnabled =
      if c.retryEnabled = none then some true else c.retryEnabled) :=
  fun _ => ⟨rfl, rfl, rfl, rfl, rfl, rfl, rfl, rfl, rfl, rfl, rfl, rfl, rfl, rfl,
            rfl, rfl, rfl, rfl⟩

end MqttLab
